import Mathlib

/- Shallow embedding of src/app.py (FC Zürich statistics fetcher).
   Python dicts and JSON payloads are modelled as values of an inductive
   Json type, Python exceptions as Except Unit, and the three remote
   HTTP requests as an environment of per-request outcomes. -/

/-- JSON values as produced by response.json(), together with the Python
literals the app builds.  fnum carries the non-integer numerals appearing
in the sample data; no theorem inspects them arithmetically. -/
inductive Json where
  | null
  | bool (b : Bool)
  | num (n : Int)
  | fnum (q : Rat)
  | str (s : String)
  | arr (xs : List Json)
  | obj (kvs : List (String × Json))

/-- Python d.get(key, default): on a dict, the stored value when the key is
present (even when that value is None), otherwise the default; on any
other receiver an AttributeError, modelled as Except.error. -/
def Json.getD (j : Json) (k : String) (d : Json) : Except Unit Json :=
  match j with
  | .obj kvs => .ok ((kvs.lookup k).getD d)
  | _ => .error ()

/-- Python d.get(key) with no default: absent keys give None. -/
def Json.get1 (j : Json) (k : String) : Except Unit Json :=
  j.getD k .null

/-- Python truthiness of JSON values (never raises). -/
def Json.truthy : Json → Bool
  | .null => false
  | .bool b => b
  | .num n => !(n == 0)
  | .fnum q => !(q == 0)
  | .str s => !(s == "")
  | .arr xs => !xs.isEmpty
  | .obj kvs => !kvs.isEmpty

/-- Python len(): defined on strings, lists and dicts, a TypeError
otherwise. -/
def Json.pyLen : Json → Except Unit Nat
  | .str s => .ok s.length
  | .arr xs => .ok xs.length
  | .obj kvs => .ok kvs.length
  | _ => .error ()

/-- Python x[0]: first element of a list (IndexError when empty), first
character of a string; a KeyError on dicts (JSON keys are strings, never
the integer 0) and a TypeError otherwise. -/
def Json.index0 : Json → Except Unit Json
  | .arr (x :: _) => .ok x
  | .str s => if s.isEmpty then .error () else .ok (.str (s.take 1))
  | _ => .error ()

/-- Python x[:10]: slicing of lists and strings; TypeError otherwise. -/
def Json.take10 : Json → Except Unit (List Json)
  | .arr xs => .ok (xs.take 10)
  | .str s => .ok ((s.take 10).toList.map (fun c => Json.str (String.mk [c])))
  | _ => .error ()

/-- Python iteration (for x in j): lists yield elements, strings yield
one-character strings, dicts yield their keys; TypeError otherwise. -/
def Json.toIterList : Json → Except Unit (List Json)
  | .arr xs => .ok xs
  | .str s => .ok (s.toList.map (fun c => Json.str (String.mk [c])))
  | .obj kvs => .ok (kvs.map (fun kv => Json.str kv.1))
  | _ => .error ()

/-- Python == against an integer constant (bool is a subclass of int;
other values simply compare unequal, never raising). -/
def Json.eqInt (j : Json) (n : Int) : Bool :=
  match j with
  | .num m => m == n
  | .bool b => (if b then (1 : Int) else 0) == n
  | _ => false

/-- Python a > b on payload values: numbers (with bools as 0/1) and
strings compare, mixed or non-orderable operands give a TypeError.
Python additionally orders two lists elementwise; that case is not
modelled and raises here (no theorem in this file depends on it). -/
def Json.pyGT : Json → Json → Except Unit Bool
  | .num a, .num b => .ok (decide (b < a))
  | .num a, .bool b => .ok (decide ((if b then (1 : Int) else 0) < a))
  | .num a, .fnum b => .ok (decide (b < (a : Rat)))
  | .bool a, .num b => .ok (decide (b < (if a then (1 : Int) else 0)))
  | .bool a, .bool b => .ok (decide ((if b then (1 : Int) else 0) < (if a then (1 : Int) else 0)))
  | .bool a, .fnum b => .ok (decide (b < (if a then (1 : Rat) else 0)))
  | .fnum a, .num b => .ok (decide ((b : Rat) < a))
  | .fnum a, .fnum b => .ok (decide (b < a))
  | .fnum a, .bool b => .ok (decide ((if b then (1 : Rat) else 0) < a))
  | .str a, .str b => .ok (decide (b < a))
  | _, _ => .error ()

/-- Python str() as used in the score f-string.  Containers and rationals
are abbreviated (no theorem inspects those branches). -/
def Json.pyStr : Json → String
  | .null => "None"
  | .bool b => if b then "True" else "False"
  | .num n => toString n
  | .fnum q => toString q
  | .str s => s
  | .arr _ => "[...]"
  | .obj _ => "\x7b...\x7d"

/-- Assignment into an association list: replaces the value of an existing
key in place, appends a fresh key at the end (Python dict semantics). -/
def setPairs : List (String × Json) → String → Json → List (String × Json)
  | [], k, v => [(k, v)]
  | (k1, v1) :: rest, k, v =>
    if k1 == k then (k, v) :: rest else (k1, v1) :: setPairs rest k v

/-- Python stats[key] = v.  The stats value in app.py is always a dict;
on a non-dict the receiver is returned unchanged (that branch is
unreachable in every use below). -/
def Json.set : Json → String → Json → Json
  | .obj kvs, k, v => .obj (setPairs kvs k v)
  | j, _, _ => j

/- ---------------------------------------------------------------------
   datetime: the fragment of datetime.fromisoformat / strftime that
   format_date and the recent-matches date re-formatting rely on.
   --------------------------------------------------------------------- -/

structure PyDateTime where
  year : Nat
  month : Nat
  day : Nat
  hour : Nat
  minute : Nat
  second : Nat

def digitVal (c : Char) : Option Nat :=
  if c.isDigit then some (c.toNat - 48) else none

def d2n (a b : Char) : Option Nat := do
  let x ← digitVal a
  let y ← digitVal b
  pure (10 * x + y)

def d4n (a b c d : Char) : Option Nat := do
  let x ← d2n a b
  let y ← d2n c d
  pure (100 * x + y)

/-- Split a character list at the first occurrence of c, dropping it. -/
def splitFirst (c : Char) : List Char → Option (List Char × List Char)
  | [] => none
  | x :: xs =>
    if x == c then some ([], xs)
    else match splitFirst c xs with
      | some (a, b) => some (x :: a, b)
      | none => none

def isLeap (y : Nat) : Bool :=
  (y % 4 == 0 && !(y % 100 == 0)) || y % 400 == 0

def daysInMonth (y m : Nat) : Nat :=
  if m == 2 then (if isLeap y then 29 else 28)
  else if m == 4 || m == 6 || m == 9 || m == 11 then 30
  else 31

/-- Python _parse_hh_mm_ss_ff: HH, HH:MM, HH:MM:SS, optionally followed by
a dot and a 3- or 6-digit fraction (the fraction is validated and
discarded: neither strftime format below prints it). -/
def parseHMSF (l : List Char) : Option (Nat × Nat × Nat) :=
  match l with
  | a :: b :: rest => do
    let hh ← d2n a b
    match rest with
    | [] => pure (hh, 0, 0)
    | ':' :: c :: d :: rest2 => do
      let mm ← d2n c d
      match rest2 with
      | [] => pure (hh, mm, 0)
      | ':' :: e :: f :: rest3 => do
        let ss ← d2n e f
        match rest3 with
        | [] => pure (hh, mm, ss)
        | '.' :: frac =>
          if frac.all (fun c2 => c2.isDigit) && (frac.length == 3 || frac.length == 6) then
            pure (hh, mm, ss)
          else none
        | _ => none
      | _ => none
    | _ => none
  | _ => none

/-- Timezone suffix HH:MM or HH:MM:SS, as total offset seconds.  (The rare
15-character fractional form accepted by CPython is not modelled.) -/
def parseTz (l : List Char) : Option Nat :=
  match l with
  | [a, b, ':', c, d] => do
    let h ← d2n a b
    let m ← d2n c d
    pure (h * 3600 + m * 60)
  | [a, b, ':', c, d, ':', e, f] => do
    let h ← d2n a b
    let m ← d2n c d
    let s ← d2n e f
    pure (h * 3600 + m * 60 + s)
  | _ => none

/-- Python datetime.fromisoformat (CPython 3.10 strict grammar):
YYYY-MM-DD, optionally one arbitrary separator character and a time,
optionally a signed timezone offset below 24 hours.  ValueError is modelled
as none.  The wall-clock fields are kept; strftime never converts. -/
def fromIso (s : String) : Option PyDateTime :=
  match s.toList with
  | y1 :: y2 :: y3 :: y4 :: '-' :: m1 :: m2 :: '-' :: e1 :: e2 :: rest => do
    let y ← d4n y1 y2 y3 y4
    let mo ← d2n m1 m2
    let da ← d2n e1 e2
    if 1 ≤ y ∧ y ≤ 9999 ∧ 1 ≤ mo ∧ mo ≤ 12 ∧ 1 ≤ da ∧ da ≤ daysInMonth y mo then
      match rest with
      | [] => pure ⟨y, mo, da, 0, 0, 0⟩
      | _sep :: tcs =>
        if tcs.isEmpty then none
        else do
          let (timecs, tzcs) :=
            match splitFirst '-' tcs with
            | some (a, b) => (a, some b)
            | none =>
              match splitFirst '+' tcs with
              | some (a, b) => (a, some b)
              | none => (tcs, none)
          let (hh, mi, ss) ← parseHMSF timecs
          if hh ≤ 23 ∧ mi ≤ 59 ∧ ss ≤ 59 then
            match tzcs with
            | none => pure ⟨y, mo, da, hh, mi, ss⟩
            | some z => do
              let off ← parseTz z
              if off < 86400 then pure ⟨y, mo, da, hh, mi, ss⟩ else none
          else none
    else none
  | _ => none

def pad2 (n : Nat) : String :=
  if n < 10 then "0" ++ toString n else toString n

def pad4 (n : Nat) : String :=
  if n < 10 then "000" ++ toString n
  else if n < 100 then "00" ++ toString n
  else if n < 1000 then "0" ++ toString n
  else toString n

/-- strftime('%d.%m.%Y %H:%M'). -/
def strfDisplay (dt : PyDateTime) : String :=
  pad2 dt.day ++ "." ++ pad2 dt.month ++ "." ++ pad4 dt.year ++ " " ++
    pad2 dt.hour ++ ":" ++ pad2 dt.minute

/-- strftime('%Y-%m-%d'). -/
def strfYmd (dt : PyDateTime) : String :=
  pad4 dt.year ++ "-" ++ pad2 dt.month ++ "-" ++ pad2 dt.day

/-- Python date_str.replace('Z', '+00:00'): every occurrence of the
one-character pattern is rewritten, left to right. -/
def replaceZ (s : String) : String :=
  String.mk (s.toList.foldr
    (fun c acc => if c == 'Z' then '+' :: '0' :: '0' :: ':' :: '0' :: '0' :: acc else c :: acc) [])

/-- format_date from app.py.  The argument is the date string or None, as
supplied by both call sites (the template and the recent-matches loop). -/
def format_date : Option String → String
  | none => "TBD"
  | some s =>
    if s == "" then "TBD"
    else
      match fromIso (replaceZ s) with
      | some dt => strfDisplay dt
      | none => s

/- ---------------------------------------------------------------------
   get_stats_from_api: default-initialized record, then three
   independently guarded lookups (standings, next match, last matches).
   --------------------------------------------------------------------- -/

/-- Outcome of one requests.get call: a raised network exception, or a
response with a status code and a body (whose .json() parse may itself
raise, modelled by Except.error). -/
inductive HttpOutcome where
  | netErr
  | resp (status : Nat) (body : Except Unit Json)

/-- The remote API and the clock as seen by one execution of
get_stats_from_api: the outcome of each of the three GET requests plus
datetime.now().year and datetime.now().month. -/
structure ApiEnv where
  standingsResp : HttpOutcome
  nextResp : HttpOutcome
  lastResp : HttpOutcome
  year : Nat
  month : Nat

/-- season string f-string: season and the last two characters of
str(season + 1). -/
def seasonLabel (season : Nat) : String :=
  toString season ++ "/" ++ (toString (season + 1)).takeRight 2

/-- The stats dict as default-initialized at the top of
get_stats_from_api, before any lookup is attempted. -/
def initStats (year month : Nat) : Json :=
  Json.obj [("team_name", .str "FC Zürich"), ("league", .str "Swiss Super League"),
    ("season", .str (seasonLabel (if 7 ≤ month then year else year - 1))),
    ("position", .null), ("played", .num 0), ("won", .num 0), ("drawn", .num 0),
    ("lost", .num 0), ("goals_for", .num 0), ("goals_against", .num 0),
    ("goal_difference", .num 0), ("points", .num 0), ("next_match", .null),
    ("standings", .arr []), ("recent_matches", .arr [])]

/-- The values one iteration of the standings loop reads from a table row:
the formatted_team dict, whether the row's team id equals FCZ_TEAM_ID
(684), and the nine summary values written when it does. -/
structure RowData where
  formatted : Json
  isFcz : Bool
  rank : Json
  played : Json
  win : Json
  draw : Json
  lose : Json
  gfor : Json
  gagainst : Json
  gdiff : Json
  points : Json

/-- One iteration of the standings for-loop (reads only the row; the
writes it performs on stats are applyRow below). -/
def standingsIter (team : Json) : Except Unit RowData := do
  let team_data ← team.getD "team" (.obj [])
  let team_name ← team_data.getD "name" (.str "")
  let team_id ← team_data.get1 "id"
  let all_stats ← team.getD "all" (.obj [])
  let rank ← team.get1 "rank"
  let crest ← team_data.getD "logo" (.str "")
  let played ← all_stats.getD "played" (.num 0)
  let win ← all_stats.getD "win" (.num 0)
  let draw ← all_stats.getD "draw" (.num 0)
  let lose ← all_stats.getD "lose" (.num 0)
  let goals ← all_stats.getD "goals" (.obj [])
  let gfor ← goals.getD "for" (.num 0)
  let gagainst ← goals.getD "against" (.num 0)
  let gdiff ← team.getD "goalsDiff" (.num 0)
  let pts ← team.getD "points" (.num 0)
  let formatted : Json := .obj [("position", rank),
    ("team", .obj [("name", team_name), ("crest", crest)]),
    ("playedGames", played), ("won", win), ("draw", draw), ("lost", lose),
    ("goalsFor", gfor), ("goalsAgainst", gagainst), ("goalDifference", gdiff),
    ("points", pts)]
  pure ⟨formatted, team_id.eqInt 684, rank, played, win, draw, lose, gfor,
    gagainst, gdiff, pts⟩

/-- The nine summary-field assignments guarded by the team-id check. -/
def applyRow (stats : Json) (d : RowData) : Json :=
  if d.isFcz then
    ((((((((stats.set "position" d.rank).set "played" d.played).set
      "won" d.win).set "drawn" d.draw).set "lost" d.lose).set
      "goals_for" d.gfor).set "goals_against" d.gagainst).set
      "goal_difference" d.gdiff).set "points" d.points
  else stats

/-- The standings for-loop: threads the stats dict (a raise mid-loop
keeps the summary writes of earlier iterations) and accumulates the
formatted_standings list. -/
def standingsLoop : List Json → Json → List Json → Json × Except Unit (List Json)
  | [], stats, acc => (stats, .ok acc)
  | t :: ts, stats, acc =>
    match standingsIter t with
    | .error e => (stats, .error e)
    | .ok d => standingsLoop ts (applyRow stats d) (acc ++ [d.formatted])

/-- The stats-independent prefix of the standings block: the defensive
traversal of the parsed body down to the sliced table.  ok none means a
guard was falsy and the block fell through without writing. -/
def standingsParse (data : Json) : Except Unit (Option (List Json)) := do
  let resp ← data.get1 "response"
  if resp.truthy then do
    let n ← resp.pyLen
    if 0 < n then do
      let first ← resp.index0
      let league_data ← first.getD "league" (.obj [])
      let standings_data ← league_data.getD "standings" (.arr [])
      if standings_data.truthy then do
        let m ← standings_data.pyLen
        if 0 < m then do
          let table ← standings_data.index0
          let rows ← table.take10
          pure (some rows)
        else pure none
      else pure none
    else pure none
  else pure none

/-- Body of the standings try-block given a parsed 200 response;
stats['standings'] is assigned only after the loop completes. -/
def standingsCore (data stats : Json) : Json :=
  match standingsParse data with
  | .error _ => stats
  | .ok none => stats
  | .ok (some rows) =>
    match standingsLoop rows stats [] with
    | (s, .error _) => s
    | (s, .ok formatted) => s.set "standings" (.arr formatted)

/-- The whole standings block: request, status check, body parse, core;
its except handler only logs, so every raise leaves the stats dict as
already mutated. -/
def standingsBlock (o : HttpOutcome) (stats : Json) : Json :=
  match o with
  | .netErr => stats
  | .resp status body =>
    if status == 200 then
      match body with
      | .error _ => stats
      | .ok data => standingsCore data stats
    else stats

/-- The next-match dict built from the first fixture of the response;
ok none when a guard was falsy. -/
def nextParse (data : Json) : Except Unit (Option Json) := do
  let resp ← data.get1 "response"
  if resp.truthy then do
    let n ← resp.pyLen
    if 0 < n then do
      let m ← resp.index0
      let fixture ← m.getD "fixture" (.obj [])
      let teams ← m.getD "teams" (.obj [])
      let league ← m.getD "league" (.obj [])
      let venue ← fixture.getD "venue" (.obj [])
      let home ← teams.getD "home" (.obj [])
      let home_name ← home.getD "name" (.str "TBD")
      let away ← teams.getD "away" (.obj [])
      let away_name ← away.getD "name" (.str "TBD")
      let date ← fixture.getD "date" (.str "")
      let comp ← league.getD "name" (.str "Swiss Super League")
      let ven ← venue.getD "name" (.str "TBD")
      pure (some (Json.obj [("home_team", home_name), ("away_team", away_name),
        ("date", date), ("competition", comp), ("venue", ven)]))
    else pure none
  else pure none

def nextCore (data stats : Json) : Json :=
  match nextParse data with
  | .error _ => stats
  | .ok none => stats
  | .ok (some nm) => stats.set "next_match" nm

def nextBlock (o : HttpOutcome) (stats : Json) : Json :=
  match o with
  | .netErr => stats
  | .resp status body =>
    if status == 200 then
      match body with
      | .error _ => stats
      | .ok data => nextCore data stats
    else stats

/-- The result chain of the recent-matches loop: W when the tracked
team's goals exceed the opponent's, L when fewer, D otherwise; either
comparison may raise on non-orderable values. -/
def resultOf (fcz_goals opp_goals : Json) : Except Unit String := do
  let gt ← fcz_goals.pyGT opp_goals
  if gt then pure "W"
  else do
    let lt ← opp_goals.pyGT fcz_goals
    pure (if lt then "L" else "D")

/-- The date reformatting of the recent-matches loop: falsy values pass
through, a truthy string is reformatted to YYYY-MM-DD when parseable and
otherwise replaced by format_date's output (which is the original string
whenever this second parse failed), and a truthy non-string raises the
AttributeError that format_date's str.replace would. -/
def dateOf (md : Json) : Except Unit Json :=
  if md.truthy then
    match md with
    | .str s =>
      let formatted := format_date (some s)
      match fromIso (replaceZ s) with
      | some dt => .ok (.str (strfYmd dt))
      | none => .ok (.str formatted)
    | _ => .error ()
  else .ok md

/-- One iteration of the recent-matches loop: side by team-id comparison,
result by numeric comparison, score always home-away, date reformatted
through format_date and a second fromisoformat parse. -/
def recentIter (m : Json) : Except Unit Json := do
  let fixture ← m.getD "fixture" (.obj [])
  let teams ← m.getD "teams" (.obj [])
  let goals ← m.getD "goals" (.obj [])
  let home_team ← teams.getD "home" (.obj [])
  let away_team ← teams.getD "away" (.obj [])
  let home_goals ← goals.getD "home" (.num 0)
  let away_goals ← goals.getD "away" (.num 0)
  let home_id ← home_team.get1 "id"
  let is_home := home_id.eqInt 684
  let opponent ← if is_home then away_team.getD "name" (.str "")
    else home_team.getD "name" (.str "")
  let fcz_goals := if is_home then home_goals else away_goals
  let opp_goals := if is_home then away_goals else home_goals
  let result ← resultOf fcz_goals opp_goals
  let md ← fixture.getD "date" (.str "")
  let date ← dateOf md
  pure (Json.obj [("opponent", opponent), ("result", .str result),
    ("score", .str (home_goals.pyStr ++ "-" ++ away_goals.pyStr)),
    ("date", date)])

def recentLoop : List Json → List Json → Except Unit (List Json)
  | [], acc => .ok acc
  | m :: ms, acc =>
    match recentIter m with
    | .error e => .error e
    | .ok entry => recentLoop ms (acc ++ [entry])

def recentParse (data : Json) : Except Unit (Option (List Json)) := do
  let resp ← data.get1 "response"
  if resp.truthy then do
    let ms ← resp.toIterList
    let recent ← recentLoop ms []
    pure (some recent)
  else pure none

def recentCore (data stats : Json) : Json :=
  match recentParse data with
  | .error _ => stats
  | .ok none => stats
  | .ok (some recent) => stats.set "recent_matches" (.arr recent)

def recentBlock (o : HttpOutcome) (stats : Json) : Json :=
  match o with
  | .netErr => stats
  | .resp status body =>
    if status == 200 then
      match body with
      | .error _ => stats
      | .ok data => recentCore data stats
    else stats

/-- get_stats_from_api: the default-initialized dict threaded through the
three guarded blocks.  Every statement of the function body is either
pure construction or sits inside one of the three handlers, so the
function itself returns normally for every environment. -/
def get_stats_from_api (env : ApiEnv) : Except Unit Json :=
  .ok (recentBlock env.lastResp (nextBlock env.nextResp
    (standingsBlock env.standingsResp (initStats env.year env.month))))

/-- get_sample_data from app.py, transcribed field for field. -/
def get_sample_data : Json :=
  Json.obj [
    ("team_name", .str "FC Zürich"),
    ("league", .str "Swiss Super League"),
    ("season", .str "2024/25"),
    ("position", .num 5),
    ("played", .num 15),
    ("won", .num 6),
    ("drawn", .num 4),
    ("lost", .num 5),
    ("goals_for", .num 22),
    ("goals_against", .num 18),
    ("goal_difference", .num 4),
    ("points", .num 22),
    ("next_match", .obj [
      ("home_team", .str "FC Zürich"),
      ("away_team", .str "BSC Young Boys"),
      ("date", .str "2024-12-07T17:30:00Z"),
      ("competition", .str "Swiss Super League"),
      ("venue", .str "Letzigrund")]),
    ("standings", .arr [
      .obj [("position", .num 1), ("team", .obj [("name", .str "FC Lugano"), ("crest", .str "")]),
        ("playedGames", .num 15), ("won", .num 10), ("draw", .num 3), ("lost", .num 2),
        ("goalsFor", .num 28), ("goalsAgainst", .num 12), ("goalDifference", .num 16), ("points", .num 33)],
      .obj [("position", .num 2), ("team", .obj [("name", .str "FC Basel 1893"), ("crest", .str "")]),
        ("playedGames", .num 15), ("won", .num 9), ("draw", .num 4), ("lost", .num 2),
        ("goalsFor", .num 30), ("goalsAgainst", .num 15), ("goalDifference", .num 15), ("points", .num 31)],
      .obj [("position", .num 3), ("team", .obj [("name", .str "Servette FC"), ("crest", .str "")]),
        ("playedGames", .num 15), ("won", .num 8), ("draw", .num 4), ("lost", .num 3),
        ("goalsFor", .num 24), ("goalsAgainst", .num 14), ("goalDifference", .num 10), ("points", .num 28)],
      .obj [("position", .num 4), ("team", .obj [("name", .str "BSC Young Boys"), ("crest", .str "")]),
        ("playedGames", .num 15), ("won", .num 7), ("draw", .num 5), ("lost", .num 3),
        ("goalsFor", .num 25), ("goalsAgainst", .num 16), ("goalDifference", .num 9), ("points", .num 26)],
      .obj [("position", .num 5), ("team", .obj [("name", .str "FC Zürich"), ("crest", .str "")]),
        ("playedGames", .num 15), ("won", .num 6), ("draw", .num 4), ("lost", .num 5),
        ("goalsFor", .num 22), ("goalsAgainst", .num 18), ("goalDifference", .num 4), ("points", .num 22)],
      .obj [("position", .num 6), ("team", .obj [("name", .str "FC St. Gallen"), ("crest", .str "")]),
        ("playedGames", .num 15), ("won", .num 5), ("draw", .num 5), ("lost", .num 5),
        ("goalsFor", .num 20), ("goalsAgainst", .num 20), ("goalDifference", .num 0), ("points", .num 20)],
      .obj [("position", .num 7), ("team", .obj [("name", .str "FC Luzern"), ("crest", .str "")]),
        ("playedGames", .num 15), ("won", .num 5), ("draw", .num 4), ("lost", .num 6),
        ("goalsFor", .num 18), ("goalsAgainst", .num 22), ("goalDifference", .num (-4)), ("points", .num 19)],
      .obj [("position", .num 8), ("team", .obj [("name", .str "FC Sion"), ("crest", .str "")]),
        ("playedGames", .num 15), ("won", .num 4), ("draw", .num 5), ("lost", .num 6),
        ("goalsFor", .num 16), ("goalsAgainst", .num 21), ("goalDifference", .num (-5)), ("points", .num 17)],
      .obj [("position", .num 9), ("team", .obj [("name", .str "Grasshopper Club"), ("crest", .str "")]),
        ("playedGames", .num 15), ("won", .num 3), ("draw", .num 4), ("lost", .num 8),
        ("goalsFor", .num 14), ("goalsAgainst", .num 25), ("goalDifference", .num (-11)), ("points", .num 13)],
      .obj [("position", .num 10), ("team", .obj [("name", .str "FC Winterthur"), ("crest", .str "")]),
        ("playedGames", .num 15), ("won", .num 2), ("draw", .num 4), ("lost", .num 9),
        ("goalsFor", .num 12), ("goalsAgainst", .num 28), ("goalDifference", .num (-16)), ("points", .num 10)]]),
    ("recent_matches", .arr [
      .obj [("opponent", .str "FC Lugano"), ("result", .str "L"), ("score", .str "1-2"), ("date", .str "2024-11-23")],
      .obj [("opponent", .str "FC St. Gallen"), ("result", .str "W"), ("score", .str "3-1"), ("date", .str "2024-11-09")],
      .obj [("opponent", .str "Servette FC"), ("result", .str "D"), ("score", .str "1-1"), ("date", .str "2024-11-02")],
      .obj [("opponent", .str "FC Sion"), ("result", .str "W"), ("score", .str "2-0"), ("date", .str "2024-10-26")],
      .obj [("opponent", .str "FC Basel 1893"), ("result", .str "L"), ("score", .str "0-1"), ("date", .str "2024-10-19")]]),
    ("home_stats", .obj [("played", .num 8), ("won", .num 4), ("drawn", .num 2), ("lost", .num 2),
      ("goals_for", .num 14), ("goals_against", .num 8), ("points", .num 14)]),
    ("away_stats", .obj [("played", .num 7), ("won", .num 2), ("drawn", .num 2), ("lost", .num 3),
      ("goals_for", .num 8), ("goals_against", .num 10), ("points", .num 8)]),
    ("monthly_stats", .arr [
      .obj [("month", .str "Juli"), ("played", .num 2), ("won", .num 1), ("drawn", .num 1), ("lost", .num 0),
        ("goals_for", .num 4), ("goals_against", .num 2), ("points", .num 4)],
      .obj [("month", .str "August"), ("played", .num 4), ("won", .num 2), ("drawn", .num 1), ("lost", .num 1),
        ("goals_for", .num 7), ("goals_against", .num 5), ("points", .num 7)],
      .obj [("month", .str "September"), ("played", .num 3), ("won", .num 1), ("drawn", .num 1), ("lost", .num 1),
        ("goals_for", .num 4), ("goals_against", .num 4), ("points", .num 4)],
      .obj [("month", .str "Oktober"), ("played", .num 3), ("won", .num 1), ("drawn", .num 0), ("lost", .num 2),
        ("goals_for", .num 3), ("goals_against", .num 4), ("points", .num 3)],
      .obj [("month", .str "November"), ("played", .num 3), ("won", .num 1), ("drawn", .num 1), ("lost", .num 1),
        ("goals_for", .num 4), ("goals_against", .num 3), ("points", .num 4)]]),
    ("points_progression", .arr [.num 4, .num 7, .num 10, .num 11, .num 14, .num 15, .num 16,
      .num 16, .num 17, .num 18, .num 18, .num 19, .num 22, .num 22, .num 22]),
    ("goals_by_matchday", .obj [
      ("scored", .arr [.num 2, .num 2, .num 1, .num 2, .num 1, .num 1, .num 1, .num 0, .num 1,
        .num 1, .num 0, .num 1, .num 3, .num 0, .num 1]),
      ("conceded", .arr [.num 1, .num 1, .num 2, .num 1, .num 1, .num 0, .num 1, .num 2, .num 1,
        .num 0, .num 2, .num 1, .num 1, .num 2, .num 2])]),
    ("top_scorers", .arr [
      .obj [("name", .str "Jonathan Okita"), ("goals", .num 6), ("assists", .num 3)],
      .obj [("name", .str "Juan José Perea"), ("goals", .num 5), ("assists", .num 2)],
      .obj [("name", .str "Labinot Bajrami"), ("goals", .num 4), ("assists", .num 4)],
      .obj [("name", .str "Mirlind Kryeziu"), ("goals", .num 3), ("assists", .num 1)],
      .obj [("name", .str "Nikola Katic"), ("goals", .num 2), ("assists", .num 0)]]),
    ("clean_sheets", .num 5),
    ("avg_goals_per_match", .fnum 1.47),
    ("avg_conceded_per_match", .fnum 1.20),
    ("win_percentage", .num 40),
    ("form_last_5", .arr [.str "L", .str "W", .str "D", .str "W", .str "L"])]

/-- get_fcz_stats from app.py: try the live path only when API_KEY is
truthy; any exception escaping it is caught and logged; every fall-through
returns the sample data. -/
def get_fcz_stats (key : String) (env : ApiEnv) : Except Unit Json :=
  match (if key == "" then Except.ok none
    else (get_stats_from_api env).map some : Except Unit (Option Json)) with
  | .ok (some s) => .ok s
  | .ok none => .ok get_sample_data
  | .error _ => .ok get_sample_data

/- ---------------------------------------------------------------------
   Vocabulary for the claims: key sets, well-formed standings rows and
   fixtures, payload builders, field projection.
   --------------------------------------------------------------------- -/

/-- The key list of a dict record. -/
def statsKeys (j : Json) : List String :=
  match j with
  | .obj kvs => kvs.map Prod.fst
  | _ => []

/-- The fifteen keys of the canonical TeamStatistics schema, in the
insertion order of the stats dict of get_stats_from_api. -/
def canonicalKeys : List String :=
  ["team_name", "league", "season", "position", "played", "won", "drawn",
   "lost", "goals_for", "goals_against", "goal_difference", "points",
   "next_match", "standings", "recent_matches"]

/-- The nine top-level summary keys written by the standings loop. -/
def summaryKeys : List String :=
  ["position", "played", "won", "drawn", "lost", "goals_for",
   "goals_against", "goal_difference", "points"]

/-- The keys of get_sample_data that lie outside the canonical schema. -/
def extraKeys : List String :=
  ["home_stats", "away_stats", "monthly_stats", "points_progression",
   "goals_by_matchday", "top_scorers", "clean_sheets",
   "avg_goals_per_match", "avg_conceded_per_match", "win_percentage",
   "form_last_5"]

/-- A well-formed standings-table row, as the provider schema shapes it. -/
structure RowSpec where
  id : Int
  rank : Int
  played : Int
  win : Int
  draw : Int
  lose : Int
  gfor : Int
  gagainst : Int
  gdiff : Int
  points : Int
  name : String
  crest : String

/-- The provider-side JSON of a standings row. -/
def mkRow (r : RowSpec) : Json :=
  .obj [("rank", .num r.rank),
    ("team", .obj [("id", .num r.id), ("name", .str r.name), ("logo", .str r.crest)]),
    ("all", .obj [("played", .num r.played), ("win", .num r.win), ("draw", .num r.draw),
      ("lose", .num r.lose),
      ("goals", .obj [("for", .num r.gfor), ("against", .num r.gagainst)])]),
    ("goalsDiff", .num r.gdiff), ("points", .num r.points)]

/-- The formatted_team dict the loop builds from a well-formed row. -/
def formattedOf (r : RowSpec) : Json :=
  .obj [("position", .num r.rank),
    ("team", .obj [("name", .str r.name), ("crest", .str r.crest)]),
    ("playedGames", .num r.played), ("won", .num r.win), ("draw", .num r.draw),
    ("lost", .num r.lose), ("goalsFor", .num r.gfor), ("goalsAgainst", .num r.gagainst),
    ("goalDifference", .num r.gdiff), ("points", .num r.points)]

/-- The RowData standingsIter extracts from a well-formed row. -/
def rowDataOf (r : RowSpec) : RowData :=
  ⟨formattedOf r, r.id == 684, .num r.rank, .num r.played, .num r.win, .num r.draw,
    .num r.lose, .num r.gfor, .num r.gagainst, .num r.gdiff, .num r.points⟩

/-- A standings response body holding one league with one group table. -/
def standingsPayload (table : List Json) : Json :=
  .obj [("response", .arr [
    .obj [("league", .obj [("standings", .arr [.arr table])])]])]

/-- A well-formed finished fixture of the last-5 payload. -/
structure FixtureSpec where
  homeId : Int
  awayId : Int
  homeName : String
  awayName : String
  hg : Int
  ag : Int
  date : String

/-- The provider-side JSON of a finished fixture. -/
def mkFixture (f : FixtureSpec) : Json :=
  .obj [("fixture", .obj [("date", .str f.date)]),
    ("teams", .obj [
      ("home", .obj [("id", .num f.homeId), ("name", .str f.homeName)]),
      ("away", .obj [("id", .num f.awayId), ("name", .str f.awayName)])]),
    ("goals", .obj [("home", .num f.hg), ("away", .num f.ag)])]

/-- The date value the recent-matches loop stores for a given fixture
date string. -/
def entryDate (s : String) : Json :=
  if s == "" then .str s
  else match fromIso (replaceZ s) with
    | some dt => .str (strfYmd dt)
    | none => .str s

/-- The recent-matches entry built from a well-formed fixture: side by
team id, outcome by goal comparison, score always home-away. -/
def entryOf (f : FixtureSpec) : Json :=
  .obj [("opponent", .str (if f.homeId == 684 then f.awayName else f.homeName)),
    ("result", .str (if decide ((if f.homeId == 684 then f.ag else f.hg) <
        (if f.homeId == 684 then f.hg else f.ag)) then "W"
      else if decide ((if f.homeId == 684 then f.hg else f.ag) <
        (if f.homeId == 684 then f.ag else f.hg)) then "L" else "D")),
    ("score", .str (toString f.hg ++ "-" ++ toString f.ag)),
    ("date", entryDate f.date)]

/-- A last-5 response body holding the given fixtures. -/
def fixturesPayload (ms : List Json) : Json :=
  .obj [("response", .arr ms)]

/-- Projection of one field out of a fetch result. -/
def fieldOf (r : Except Unit Json) (k : String) : Except Unit Json :=
  match r with
  | .ok s => s.get1 k
  | .error e => .error e

/-- A lookup outcome the spec counts as a failed remote lookup: the
request raised a network exception, the response status is not 200, or
the body is not parseable JSON (response.json() raises). -/
def lookupFails : HttpOutcome → Bool
  | .netErr => true
  | .resp status body =>
    !(status == 200) || (match body with | .error _ => true | .ok _ => false)

/-- A next-match fixture in which each of the five sub-fields read by the
code is independently present (with an arbitrary string value) or
absent. -/
structure NextSpec where
  home : Option String
  away : Option String
  date : Option String
  comp : Option String
  venue : Option String

/-- One optional key of a payload object. -/
def optField (k : String) : Option String → List (String × Json)
  | some s => [(k, .str s)]
  | none => []

/-- The provider-side JSON of a next-match fixture with the given
present/absent sub-fields. -/
def mkNextPayloadMatch (n : NextSpec) : Json :=
  .obj [
    ("fixture", .obj (optField "date" n.date ++
      [("venue", .obj (optField "name" n.venue))])),
    ("teams", .obj [("home", .obj (optField "name" n.home)),
      ("away", .obj (optField "name" n.away))]),
    ("league", .obj (optField "name" n.comp))]

/-- The next_match record the code builds for those sub-fields: absent
home, away and venue names default to TBD, an absent kickoff date to the
empty string, an absent competition to Swiss Super League; present
sub-fields pass through. -/
def nextOf (n : NextSpec) : Json :=
  .obj [("home_team", .str (n.home.getD "TBD")),
    ("away_team", .str (n.away.getD "TBD")),
    ("date", .str (n.date.getD "")),
    ("competition", .str (n.comp.getD "Swiss Super League")),
    ("venue", .str (n.venue.getD "TBD"))]

/- Helper lemmas about dict assignment. -/

theorem lookup_setPairs_self (kvs : List (String × Json)) (k : String) (v : Json) :
    (setPairs kvs k v).lookup k = some v := by
  induction kvs with
  | nil => simp [setPairs, List.lookup]
  | cons kv rest ih =>
    obtain ⟨k1, v1⟩ := kv
    by_cases h : k1 = k
    · simp [setPairs, h, List.lookup]
    · have h2 : (k == k1) = false := beq_eq_false_iff_ne.mpr (Ne.symm h)
      have h3 : (k1 == k) = false := beq_eq_false_iff_ne.mpr h
      simp [setPairs, h3, List.lookup, h2, ih]

theorem lookup_setPairs_ne (kvs : List (String × Json)) (k k2 : String) (v : Json)
    (h : k2 ≠ k) : (setPairs kvs k v).lookup k2 = kvs.lookup k2 := by
  induction kvs with
  | nil => simp [setPairs, List.lookup, beq_eq_false_iff_ne.mpr h]
  | cons kv rest ih =>
    obtain ⟨k1, v1⟩ := kv
    by_cases h1 : k1 = k
    · have h3 : k2 ≠ k1 := h1 ▸ h
      simp [setPairs, h1, List.lookup, beq_eq_false_iff_ne.mpr h,
        beq_eq_false_iff_ne.mpr h3]
    · simp [setPairs, beq_eq_false_iff_ne.mpr h1, List.lookup, ih]

theorem keys_setPairs_of_mem (kvs : List (String × Json)) (k : String) (v : Json)
    (h : k ∈ kvs.map Prod.fst) :
    (setPairs kvs k v).map Prod.fst = kvs.map Prod.fst := by
  induction kvs with
  | nil => simp at h
  | cons kv rest ih =>
    obtain ⟨k1, v1⟩ := kv
    by_cases h1 : k1 = k
    · simp [setPairs, h1]
    · simp only [List.map_cons, List.mem_cons] at h
      rcases h with h | h
      · exact absurd h.symm h1
      · simp [setPairs, beq_eq_false_iff_ne.mpr h1, ih h]

theorem get1_set_ne (stats : Json) (k k2 : String) (v : Json) (h : k2 ≠ k) :
    (stats.set k v).get1 k2 = stats.get1 k2 := by
  cases stats <;> simp [Json.set, Json.get1, Json.getD, lookup_setPairs_ne _ _ _ _ h]

theorem get1_set_self (kvs : List (String × Json)) (k : String) (v : Json) :
    ((Json.obj kvs).set k v).get1 k = .ok v := by
  simp [Json.set, Json.get1, Json.getD, lookup_setPairs_self]

theorem statsKeys_set_canon (stats : Json) (k : String) (v : Json)
    (h : statsKeys stats = canonicalKeys) (hk : k ∈ canonicalKeys) :
    statsKeys (stats.set k v) = canonicalKeys := by
  cases stats with
  | obj kvs =>
    simp only [statsKeys] at h
    simp only [Json.set, statsKeys]
    rw [keys_setPairs_of_mem _ _ _ (h ▸ hk), h]
  | null => simp [statsKeys, canonicalKeys] at h
  | bool b => simp [statsKeys, canonicalKeys] at h
  | num n => simp [statsKeys, canonicalKeys] at h
  | fnum q => simp [statsKeys, canonicalKeys] at h
  | str s => simp [statsKeys, canonicalKeys] at h
  | arr xs => simp [statsKeys, canonicalKeys] at h

theorem isObj_of_canon (stats : Json) (h : statsKeys stats = canonicalKeys) :
    ∃ kvs, stats = Json.obj kvs := by
  cases stats with
  | obj kvs => exact ⟨kvs, rfl⟩
  | null => simp [statsKeys, canonicalKeys] at h
  | bool b => simp [statsKeys, canonicalKeys] at h
  | num n => simp [statsKeys, canonicalKeys] at h
  | fnum q => simp [statsKeys, canonicalKeys] at h
  | str s => simp [statsKeys, canonicalKeys] at h
  | arr xs => simp [statsKeys, canonicalKeys] at h

/- Invariants of the three guarded blocks: they keep the canonical key
set, and they leave every field outside their own write set untouched. -/

theorem statsKeys_applyRow (stats : Json) (d : RowData)
    (h : statsKeys stats = canonicalKeys) :
    statsKeys (applyRow stats d) = canonicalKeys := by
  unfold applyRow
  split
  · refine statsKeys_set_canon _ _ _ ?_ (by decide)
    refine statsKeys_set_canon _ _ _ ?_ (by decide)
    refine statsKeys_set_canon _ _ _ ?_ (by decide)
    refine statsKeys_set_canon _ _ _ ?_ (by decide)
    refine statsKeys_set_canon _ _ _ ?_ (by decide)
    refine statsKeys_set_canon _ _ _ ?_ (by decide)
    refine statsKeys_set_canon _ _ _ ?_ (by decide)
    refine statsKeys_set_canon _ _ _ ?_ (by decide)
    exact statsKeys_set_canon _ _ _ h (by decide)
  · exact h

theorem get1_applyRow_ne (stats : Json) (d : RowData) (k : String)
    (hk : ¬ k ∈ summaryKeys) :
    (applyRow stats d).get1 k = stats.get1 k := by
  simp only [summaryKeys, List.mem_cons, List.not_mem_nil, or_false, not_or] at hk
  obtain ⟨h1, h2, h3, h4, h5, h6, h7, h8, h9⟩ := hk
  unfold applyRow
  split
  · rw [get1_set_ne _ _ _ _ h9, get1_set_ne _ _ _ _ h8, get1_set_ne _ _ _ _ h7,
      get1_set_ne _ _ _ _ h6, get1_set_ne _ _ _ _ h5, get1_set_ne _ _ _ _ h4,
      get1_set_ne _ _ _ _ h3, get1_set_ne _ _ _ _ h2, get1_set_ne _ _ _ _ h1]
  · rfl

theorem statsKeys_standingsLoop (rows : List Json) :
    ∀ stats acc, statsKeys stats = canonicalKeys →
      statsKeys (standingsLoop rows stats acc).1 = canonicalKeys := by
  induction rows with
  | nil => intro stats acc h; exact h
  | cons t ts ih =>
    intro stats acc h
    unfold standingsLoop
    split
    · exact h
    · exact ih _ _ (statsKeys_applyRow _ _ h)

theorem get1_standingsLoop_ne (k : String) (hk : ¬ k ∈ summaryKeys) (rows : List Json) :
    ∀ stats acc, ((standingsLoop rows stats acc).1).get1 k = stats.get1 k := by
  induction rows with
  | nil => intro stats acc; rfl
  | cons t ts ih =>
    intro stats acc
    unfold standingsLoop
    split
    · rfl
    · rw [ih _ _, get1_applyRow_ne _ _ _ hk]

theorem statsKeys_standingsBlock (o : HttpOutcome) (stats : Json)
    (h : statsKeys stats = canonicalKeys) :
    statsKeys (standingsBlock o stats) = canonicalKeys := by
  unfold standingsBlock
  split
  · exact h
  · split
    · split
      · exact h
      · unfold standingsCore
        split
        · exact h
        · exact h
        · rename_i rows heqp
          split
          · rename_i s e heq
            have h2 := statsKeys_standingsLoop rows stats [] h
            rw [heq] at h2
            exact h2
          · rename_i s formatted heq
            refine statsKeys_set_canon _ _ _ ?_ (by decide)
            have h2 := statsKeys_standingsLoop rows stats [] h
            rw [heq] at h2
            exact h2
    · exact h

theorem get1_standingsBlock_ne (o : HttpOutcome) (stats : Json) (k : String)
    (hk : ¬ k ∈ summaryKeys) (hs : k ≠ "standings") :
    (standingsBlock o stats).get1 k = stats.get1 k := by
  unfold standingsBlock
  split
  · rfl
  · split
    · split
      · rfl
      · unfold standingsCore
        split
        · rfl
        · rfl
        · rename_i rows heqp
          split
          · rename_i s e heq
            have h2 := get1_standingsLoop_ne k hk rows stats []
            rw [heq] at h2
            exact h2
          · rename_i s formatted heq
            rw [get1_set_ne _ _ _ _ hs]
            have h2 := get1_standingsLoop_ne k hk rows stats []
            rw [heq] at h2
            exact h2
    · rfl

theorem statsKeys_nextBlock (o : HttpOutcome) (stats : Json)
    (h : statsKeys stats = canonicalKeys) :
    statsKeys (nextBlock o stats) = canonicalKeys := by
  unfold nextBlock
  split
  · exact h
  · split
    · split
      · exact h
      · unfold nextCore
        split
        · exact h
        · exact h
        · exact statsKeys_set_canon _ _ _ h (by decide)
    · exact h

theorem get1_nextBlock_ne (o : HttpOutcome) (stats : Json) (k : String)
    (hk : k ≠ "next_match") :
    (nextBlock o stats).get1 k = stats.get1 k := by
  unfold nextBlock
  split
  · rfl
  · split
    · split
      · rfl
      · unfold nextCore
        split
        · rfl
        · rfl
        · exact get1_set_ne _ _ _ _ hk
    · rfl

theorem statsKeys_recentBlock (o : HttpOutcome) (stats : Json)
    (h : statsKeys stats = canonicalKeys) :
    statsKeys (recentBlock o stats) = canonicalKeys := by
  unfold recentBlock
  split
  · exact h
  · split
    · split
      · exact h
      · unfold recentCore
        split
        · exact h
        · exact h
        · exact statsKeys_set_canon _ _ _ h (by decide)
    · exact h

theorem get1_recentBlock_ne (o : HttpOutcome) (stats : Json) (k : String)
    (hk : k ≠ "recent_matches") :
    (recentBlock o stats).get1 k = stats.get1 k := by
  unfold recentBlock
  split
  · rfl
  · split
    · split
      · rfl
      · unfold recentCore
        split
        · rfl
        · rfl
        · exact get1_set_ne _ _ _ _ hk
    · rfl

/- Behaviour of the loops on well-formed provider payloads. -/

theorem okBind {α β : Type} (a : α) (k : α → Except Unit β) :
    (Except.ok a >>= k : Except Unit β) = k a := rfl

theorem standingsIter_mkRow (r : RowSpec) :
    standingsIter (mkRow r) = .ok (rowDataOf r) := rfl

theorem standingsLoop_map (specs : List RowSpec) :
    ∀ stats acc,
      standingsLoop (specs.map mkRow) stats acc =
        (specs.foldl (fun s r => applyRow s (rowDataOf r)) stats,
          .ok (acc ++ specs.map formattedOf)) := by
  induction specs with
  | nil => intro stats acc; simp [standingsLoop]
  | cons r rs ih =>
    intro stats acc
    simp only [List.map_cons, standingsLoop, standingsIter_mkRow, List.foldl_cons]
    rw [ih]
    simp [rowDataOf]

theorem foldl_applyRow_eq (specs : List RowSpec) (h : ∀ p ∈ specs, p.id ≠ 684) :
    ∀ stats, specs.foldl (fun s r => applyRow s (rowDataOf r)) stats = stats := by
  induction specs with
  | nil => intro stats; rfl
  | cons r rs ih =>
    intro stats
    have hr : (r.id == 684) = false :=
      beq_eq_false_iff_ne.mpr (h r (List.mem_cons_self r rs))
    simp only [List.foldl_cons, applyRow, rowDataOf, hr]
    exact ih (fun p hp => h p (List.mem_cons_of_mem r hp)) stats

theorem resultOf_nums (a b : Int) :
    resultOf (.num a) (.num b) =
      .ok (if decide (b < a) then "W" else if decide (a < b) then "L" else "D") := by
  cases h : decide (b < a) <;> simp only [resultOf, Json.pyGT, h] <;> rfl

theorem dateOf_str (s : String) : dateOf (.str s) = .ok (entryDate s) := by
  by_cases hd : s = ""
  · simp [dateOf, entryDate, Json.truthy, hd]
  · have hb : (s == "") = false := beq_eq_false_iff_ne.mpr hd
    rcases hfi : fromIso (replaceZ s) with _ | dt <;>
      simp [dateOf, entryDate, format_date, Json.truthy, hb, hfi]

theorem recentIter_mkFixture (f : FixtureSpec) :
    recentIter (mkFixture f) = .ok (entryOf f) := by
  obtain ⟨hid, aid, hn, an, hg, ag, dt0⟩ := f
  simp only [recentIter, mkFixture, Json.getD, Json.get1, List.lookup, Json.eqInt,
    String.reduceBEq, Option.getD_some, Option.getD_none, okBind, entryOf]
  split <;> rename_i h <;>
    simp only [h, if_true, if_false, resultOf_nums, dateOf_str, okBind] <;> rfl

theorem recentLoop_map (specs : List FixtureSpec) :
    ∀ acc, recentLoop (specs.map mkFixture) acc = .ok (acc ++ specs.map entryOf) := by
  induction specs with
  | nil => intro acc; simp [recentLoop]
  | cons f fs ih =>
    intro acc
    simp only [List.map_cons, recentLoop, recentIter_mkFixture]
    rw [ih]
    simp

/-- Parsing the standings payload always reaches the sliced table. -/
theorem standingsParse_payload (table : List Json) :
    standingsParse (standingsPayload table) = .ok (some (table.take 10)) := rfl

/- ---------------------------------------------------------------------
   Claim theorems.
   --------------------------------------------------------------------- -/

/-- C5: format_date is total on its string-or-None input domain and maps
the ISO timestamp 2024-12-07T17:30:00Z to the display string
07.12.2024 17:30, the empty string and None to TBD, and an unparseable
string to itself, never raising. -/
theorem c5_format_date :
    format_date (some "2024-12-07T17:30:00Z") = "07.12.2024 17:30" ∧
    format_date (some "") = "TBD" ∧
    format_date none = "TBD" ∧
    format_date (some "not-a-date") = "not-a-date" :=
  ⟨by decide, by decide, rfl, by decide⟩

/-- C3: with no API credential configured, get_fcz_stats returns exactly
the record of get_sample_data, for every behaviour of the remote API (no
lookup influences the result). -/
theorem c3_no_credential_fallback :
    ∀ env : ApiEnv, get_fcz_stats "" env = .ok get_sample_data :=
  fun _ => rfl

/-- C2: for every credential and every behaviour of the remote API
(network failures, arbitrary statuses, malformed bodies), get_fcz_stats
returns normally with some statistics record; no exception escapes. -/
theorem c2_fetch_total :
    ∀ (key : String) (env : ApiEnv), ∃ s, get_fcz_stats key env = .ok s := by
  intro key env
  cases hk : key == ""
  · exact ⟨recentBlock env.lastResp (nextBlock env.nextResp
      (standingsBlock env.standingsResp (initStats env.year env.month))),
      by simp [get_fcz_stats, hk, get_stats_from_api, Except.map]⟩
  · exact ⟨get_sample_data, by simp [get_fcz_stats, hk]⟩

/-- C4: the live-path record always carries exactly the fifteen canonical
TeamStatistics keys, and when every remote lookup fails it is exactly the
default-initialized record (numeric fields zero, position and next_match
null, empty standings and recent_matches). -/
theorem c4_schema_coverage :
    (∀ env : ApiEnv, ∃ s, get_stats_from_api env = .ok s ∧ statsKeys s = canonicalKeys) ∧
    (∀ year month : Nat,
      get_stats_from_api ⟨.netErr, .netErr, .netErr, year, month⟩ =
        .ok (initStats year month)) := by
  constructor
  · intro env
    exact ⟨_, rfl, statsKeys_recentBlock _ _ (statsKeys_nextBlock _ _
      (statsKeys_standingsBlock _ _ rfl))⟩
  · intro year month
    rfl

/-- C10: get_sample_data carries the eleven extra keys beyond the
canonical schema, none of which the live-path record ever carries, so the
key set of a fetched record reveals which path produced it. -/
theorem c10_key_sets :
    extraKeys.all (fun k => (statsKeys get_sample_data).contains k) = true ∧
    extraKeys.all (fun k => !(canonicalKeys.contains k)) = true ∧
    statsKeys get_sample_data ≠ canonicalKeys ∧
    (∀ env : ApiEnv, ∃ s, get_stats_from_api env = .ok s ∧ statsKeys s = canonicalKeys) := by
  refine ⟨by decide, by decide, by decide, ?_⟩
  intro env
  exact ⟨_, rfl, statsKeys_recentBlock _ _ (statsKeys_nextBlock _ _
    (statsKeys_standingsBlock _ _ rfl))⟩

/-- C1 (counterexample): with a credential configured and the network
failing on all three lookups, get_fcz_stats does not return the static
fallback record; the inner handlers absorb every failure before the
outer fallback can fire. -/
theorem c1_counterexample :
    get_fcz_stats "k" ⟨.netErr, .netErr, .netErr, 2024, 12⟩ ≠ .ok get_sample_data := by
  intro h
  have h1 : get_fcz_stats "k" ⟨.netErr, .netErr, .netErr, 2024, 12⟩ =
      .ok (initStats 2024 12) := rfl
  rw [h1] at h
  have h2 : fieldOf (.ok (initStats 2024 12)) "position" =
      fieldOf (.ok get_sample_data) "position" := by rw [h]
  have h3 : fieldOf (.ok (initStats 2024 12)) "position" = .ok Json.null := rfl
  have h4 : fieldOf (.ok get_sample_data) "position" = .ok (Json.num 5) := rfl
  rw [h3, h4] at h2
  exact Json.noConfusion (Except.ok.inj h2)

/-- A standings lookup that fails (network error, non-200 status, or an
unparseable body) leaves the stats dict untouched. -/
theorem standingsBlock_fails (o : HttpOutcome) (h : lookupFails o = true)
    (stats : Json) : standingsBlock o stats = stats := by
  cases o with
  | netErr => rfl
  | resp status body =>
    unfold standingsBlock
    cases hst : status == 200
    · simp [hst]
    · cases body with
      | error e => simp [hst]
      | ok data => simp [lookupFails, hst] at h

/-- A next-match lookup that fails leaves the stats dict untouched. -/
theorem nextBlock_fails (o : HttpOutcome) (h : lookupFails o = true)
    (stats : Json) : nextBlock o stats = stats := by
  cases o with
  | netErr => rfl
  | resp status body =>
    unfold nextBlock
    cases hst : status == 200
    · simp [hst]
    · cases body with
      | error e => simp [hst]
      | ok data => simp [lookupFails, hst] at h

/-- A recent-matches lookup that fails leaves the stats dict untouched. -/
theorem recentBlock_fails (o : HttpOutcome) (h : lookupFails o = true)
    (stats : Json) : recentBlock o stats = stats := by
  cases o with
  | netErr => rfl
  | resp status body =>
    unfold recentBlock
    cases hst : status == 200
    · simp [hst]
    · cases body with
      | error e => simp [hst]
      | ok data => simp [lookupFails, hst] at h

/-- C1 (amended): with a non-empty credential and every remote lookup
failing — by network error, non-200 status or unparseable body, in any
combination — get_fcz_stats returns the default-initialized live record;
and with a non-empty credential it never returns the static fallback
record, whatever the remote API does, so get_sample_data is returned
only when no credential is configured. -/
theorem c1_amended :
    (∀ (key : String) (env : ApiEnv), key ≠ "" →
      lookupFails env.standingsResp = true → lookupFails env.nextResp = true →
      lookupFails env.lastResp = true →
      get_fcz_stats key env = .ok (initStats env.year env.month)) ∧
    (∀ (key : String) (env : ApiEnv), key ≠ "" →
      get_fcz_stats key env ≠ .ok get_sample_data) := by
  constructor
  · intro key env hkey h1 h2 h3
    have hb : (key == "") = false := beq_eq_false_iff_ne.mpr hkey
    simp only [get_fcz_stats, get_stats_from_api, Except.map, hb, Bool.false_eq_true,
      if_false, standingsBlock_fails _ h1, nextBlock_fails _ h2, recentBlock_fails _ h3]
  · intro key env hkey h
    have hb : (key == "") = false := beq_eq_false_iff_ne.mpr hkey
    have hlive : get_fcz_stats key env = .ok (recentBlock env.lastResp
        (nextBlock env.nextResp
          (standingsBlock env.standingsResp (initStats env.year env.month)))) := by
      simp only [get_fcz_stats, get_stats_from_api, Except.map, hb, Bool.false_eq_true,
        if_false]
    rw [hlive] at h
    have hkeys := statsKeys_recentBlock env.lastResp _ (statsKeys_nextBlock env.nextResp _
      (statsKeys_standingsBlock env.standingsResp (initStats env.year env.month) rfl))
    rw [Except.ok.inj h] at hkeys
    exact absurd hkeys (by decide)

/-- C1 (witness for the amended theorem): a non-200 standings response, a
network failure on the next-match request and a 200 response with an
unparseable body on the recent-matches request together yield the
default-initialized record, and the result is not the sample record. -/
theorem c1_amended_witness :
    get_fcz_stats "k" ⟨.resp 500 (.ok .null), .netErr, .resp 200 (.error ()), 2024, 12⟩ =
      .ok (initStats 2024 12) ∧
    get_fcz_stats "k" ⟨.resp 500 (.ok .null), .netErr, .resp 200 (.error ()), 2024, 12⟩ ≠
      .ok get_sample_data :=
  ⟨c1_amended.1 "k" ⟨.resp 500 (.ok .null), .netErr, .resp 200 (.error ()), 2024, 12⟩
      (by decide) (by decide) (by decide) (by decide),
    c1_amended.2 "k" ⟨.resp 500 (.ok .null), .netErr, .resp 200 (.error ()), 2024, 12⟩
      (by decide)⟩

/-- A filler standings row for teams other than FC Zürich. -/
def fillerRow (i : Int) : RowSpec :=
  ⟨i, i, 15, 6, 4, 5, 20, 18, 2, 22, "Team", ""⟩

/-- An 11-row standings table whose 11th row is FC Zürich (possible in a
12-team league): the id-684 row sits just outside the processed window. -/
def specsC7 : List RowSpec :=
  [fillerRow 1, fillerRow 2, fillerRow 3, fillerRow 4, fillerRow 5, fillerRow 6,
   fillerRow 7, fillerRow 8, fillerRow 9, fillerRow 10,
   ⟨684, 11, 15, 2, 4, 9, 10, 25, -15, 10, "FC Zürich", ""⟩]

def envC7 : ApiEnv :=
  ⟨.resp 200 (.ok (standingsPayload (specsC7.map mkRow))), .netErr, .netErr, 2024, 12⟩

/-- C7 (counterexample): the standings table of envC7 contains the row
with the configured team id 684 (at rank 11), yet the summary position
stays at its null default: only the first 10 rows are scanned, so the
claim fails for rows beyond the truncation window. -/
theorem c7_counterexample :
    (specsC7.map RowSpec.id).contains 684 = true ∧
    fieldOf (get_stats_from_api envC7) "position" = .ok Json.null ∧
    fieldOf (get_stats_from_api envC7) "position" ≠ .ok (.num 11) := by
  refine ⟨by decide, rfl, ?_⟩
  intro h
  have h1 : fieldOf (get_stats_from_api envC7) "position" = .ok Json.null := rfl
  rw [h1] at h
  exact Json.noConfusion (Except.ok.inj h)

/-- C7 (amended): when the unique id-684 row lies among the first 10 rows
of the table, all nine summary fields are populated from that row,
matched purely by the numeric id — its name (diacritics included) and its
position within the window are arbitrary. -/
theorem c7_amended (pre post : List RowSpec) (r : RowSpec) (year month : Nat)
    (o2 o3 : HttpOutcome)
    (hlen : pre.length < 10) (hr : r.id = 684)
    (hpre : ∀ p ∈ pre, p.id ≠ 684) (hpost : ∀ q ∈ post, q.id ≠ 684) :
    ∃ s,
      get_stats_from_api
          ⟨.resp 200 (.ok (standingsPayload ((pre ++ r :: post).map mkRow))), o2, o3,
            year, month⟩ = .ok s ∧
        s.get1 "position" = .ok (.num r.rank) ∧
        s.get1 "played" = .ok (.num r.played) ∧
        s.get1 "won" = .ok (.num r.win) ∧
        s.get1 "drawn" = .ok (.num r.draw) ∧
        s.get1 "lost" = .ok (.num r.lose) ∧
        s.get1 "goals_for" = .ok (.num r.gfor) ∧
        s.get1 "goals_against" = .ok (.num r.gagainst) ∧
        s.get1 "goal_difference" = .ok (.num r.gdiff) ∧
        s.get1 "points" = .ok (.num r.points) := by
  have htail : ∀ q ∈ post.take (10 - pre.length - 1), q.id ≠ 684 :=
    fun q hq => hpost q (List.mem_of_mem_take hq)
  have htake : ((pre ++ r :: post).map mkRow).take 10 =
      (pre ++ r :: post.take (10 - pre.length - 1)).map mkRow := by
    rw [← List.map_take]
    congr 1
    rw [List.take_append_eq_append_take, List.take_of_length_le (Nat.le_of_lt hlen)]
    have h10 : 10 - pre.length = (10 - pre.length - 1) + 1 := by omega
    rw [h10, List.take_succ_cons]
    simp [Nat.add_sub_cancel]
  have hblock :
      standingsBlock (.resp 200 (.ok (standingsPayload ((pre ++ r :: post).map mkRow))))
          (initStats year month) =
        (applyRow (initStats year month) (rowDataOf r)).set "standings"
          (.arr ((pre ++ r :: post.take (10 - pre.length - 1)).map formattedOf)) := by
    show standingsCore (standingsPayload ((pre ++ r :: post).map mkRow))
        (initStats year month) = _
    simp only [standingsCore, standingsParse_payload]
    rw [htake, standingsLoop_map]
    simp only [List.nil_append, List.map_append, List.map_cons, List.foldl_append,
      List.foldl_cons]
    rw [foldl_applyRow_eq pre hpre, foldl_applyRow_eq _ htail]
  refine ⟨_, rfl, ?_, ?_, ?_, ?_, ?_, ?_, ?_, ?_, ?_⟩ <;>
    · rw [get1_recentBlock_ne _ _ _ (by decide), get1_nextBlock_ne _ _ _ (by decide), hblock,
        get1_set_ne _ _ _ _ (by decide)]
      simp only [applyRow, rowDataOf, hr]
      rfl

/-- The standings row used to witness the amended C7 theorem. -/
def specC7w : RowSpec :=
  ⟨684, 1, 15, 10, 3, 2, 28, 12, 16, 33, "FC Zürich", ""⟩

/-- C7 (witness): the amended theorem applied to a one-row table. -/
theorem c7_amended_witness :
    ∃ s,
      get_stats_from_api
          ⟨.resp 200 (.ok (standingsPayload ((([] : List RowSpec) ++ specC7w ::
            ([] : List RowSpec)).map mkRow))), .netErr, .netErr, 2024, 12⟩ = .ok s ∧
        s.get1 "position" = .ok (.num specC7w.rank) ∧
        s.get1 "played" = .ok (.num specC7w.played) ∧
        s.get1 "won" = .ok (.num specC7w.win) ∧
        s.get1 "drawn" = .ok (.num specC7w.draw) ∧
        s.get1 "lost" = .ok (.num specC7w.lose) ∧
        s.get1 "goals_for" = .ok (.num specC7w.gfor) ∧
        s.get1 "goals_against" = .ok (.num specC7w.gagainst) ∧
        s.get1 "goal_difference" = .ok (.num specC7w.gdiff) ∧
        s.get1 "points" = .ok (.num specC7w.points) :=
  c7_amended [] [] specC7w 2024 12 .netErr .netErr (by decide) rfl
    (fun p hp => absurd hp (List.not_mem_nil p))
    (fun q hq => absurd hq (List.not_mem_nil q))

/-- C9: for every table shipped by the standings endpoint, the display
standings of the returned record are exactly the formatted first 10 rows,
in the provider's order, whatever the other two lookups return. -/
theorem c9_standings_truncation (specs : List RowSpec) (year month : Nat)
    (o2 o3 : HttpOutcome) :
    fieldOf (get_stats_from_api
        ⟨.resp 200 (.ok (standingsPayload (specs.map mkRow))), o2, o3, year, month⟩)
      "standings" = .ok (.arr ((specs.take 10).map formattedOf)) := by
  have htk : (specs.map mkRow).take 10 = (specs.take 10).map mkRow :=
    (List.map_take ..).symm
  have hblock :
      standingsBlock (.resp 200 (.ok (standingsPayload (specs.map mkRow))))
          (initStats year month) =
        ((specs.take 10).foldl (fun s r => applyRow s (rowDataOf r))
            (initStats year month)).set
          "standings" (.arr ((specs.take 10).map formattedOf)) := by
    show standingsCore (standingsPayload (specs.map mkRow)) (initStats year month) = _
    simp only [standingsCore, standingsParse_payload]
    rw [htk, standingsLoop_map]
    simp only [List.nil_append]
  have hkeys : statsKeys ((specs.take 10).foldl (fun s r => applyRow s (rowDataOf r))
      (initStats year month)) = canonicalKeys := by
    have h0 := statsKeys_standingsLoop ((specs.take 10).map mkRow)
      (initStats year month) [] rfl
    rw [standingsLoop_map] at h0
    simpa using h0
  obtain ⟨kvs, hk⟩ := isObj_of_canon _ hkeys
  show Json.get1 (recentBlock o3 (nextBlock o2 (standingsBlock
      (.resp 200 (.ok (standingsPayload (specs.map mkRow)))) (initStats year month))))
    "standings" = .ok (.arr ((specs.take 10).map formattedOf))
  rw [get1_recentBlock_ne _ _ _ (by decide), get1_nextBlock_ne _ _ _ (by decide), hblock, hk,
    get1_set_self]

/-- C6: for every list of finished fixtures in the last-5 payload, the
recorded entries derive the side from the home team id (684 means home,
anything else away), the outcome W, L or D from comparing the tracked
team's goals with the opponent's, and the score string always as
home_goals-away_goals; the other two lookups are arbitrary. -/
theorem c6_recent_outcomes (specs : List FixtureSpec) (year month : Nat)
    (o1 o2 : HttpOutcome) :
    fieldOf (get_stats_from_api
        ⟨o1, o2, .resp 200 (.ok (fixturesPayload (specs.map mkFixture))), year, month⟩)
      "recent_matches" = .ok (.arr (specs.map entryOf)) := by
  have hkeys : statsKeys (nextBlock o2 (standingsBlock o1 (initStats year month))) =
      canonicalKeys :=
    statsKeys_nextBlock _ _ (statsKeys_standingsBlock _ _ rfl)
  obtain ⟨kvs, hk⟩ := isObj_of_canon _ hkeys
  cases specs with
  | nil =>
    show Json.get1 (nextBlock o2 (standingsBlock o1 (initStats year month)))
      "recent_matches" = .ok (.arr (List.map entryOf []))
    rw [get1_nextBlock_ne _ _ _ (by decide),
      get1_standingsBlock_ne _ _ _ (by decide) (by decide)]
    rfl
  | cons f fs =>
    have hparse : recentParse (fixturesPayload ((f :: fs).map mkFixture)) =
        .ok (some ((f :: fs).map entryOf)) := by
      simp only [recentParse, fixturesPayload, Json.get1, Json.getD, List.lookup,
        beq_self_eq_true, Option.getD_some, okBind, Json.truthy, Json.toIterList,
        List.map_cons, List.isEmpty_cons, Bool.not_false, if_true]
      rw [← List.map_cons, recentLoop_map]
      rfl
    show Json.get1 (recentCore (fixturesPayload ((f :: fs).map mkFixture))
        (nextBlock o2 (standingsBlock o1 (initStats year month)))) "recent_matches" =
      .ok (.arr ((f :: fs).map entryOf))
    simp only [recentCore, hparse]
    rw [hk, get1_set_self]

/-- The next-match response whose single fixture is an empty object:
every sub-field of the payload is absent. -/
def emptyMatchPayload : Json :=
  .obj [("response", .arr [Json.obj []])]

/-- C8 (counterexample): with every sub-field absent, the constructed
next_match defaults home, away and venue to TBD, but the kickoff date
defaults to the empty string and the competition to Swiss Super League —
two of the five fields do not carry the TBD placeholder the claim
requires. -/
theorem c8_counterexample :
    fieldOf (get_stats_from_api
        ⟨.netErr, .resp 200 (.ok emptyMatchPayload), .netErr, 2024, 12⟩) "next_match" =
      .ok (.obj [("home_team", .str "TBD"), ("away_team", .str "TBD"), ("date", .str ""),
        ("competition", .str "Swiss Super League"), ("venue", .str "TBD")]) ∧
    Json.str "" ≠ Json.str "TBD" ∧
    Json.str "Swiss Super League" ≠ Json.str "TBD" := by
  refine ⟨rfl, ?_, ?_⟩ <;> (intro h; exact absurd (Json.str.inj h) (by decide))

/-- Parsing a next-match payload builds the defaulted record, whichever
of the five sub-fields are present. -/
theorem nextParse_mkNextPayloadMatch (n : NextSpec) :
    nextParse (fixturesPayload [mkNextPayloadMatch n]) = .ok (some (nextOf n)) := by
  obtain ⟨h, a, d, c, v⟩ := n
  cases h <;> cases a <;> cases d <;> cases c <;> cases v <;> rfl

/-- C8 (amended): for every next-match payload — each of the five
sub-fields independently present or absent — the constructed next_match
record carries all five keys, with each absent sub-field defaulted
rather than omitted: home team name, away team name and venue to TBD,
the kickoff date to the empty string, and the competition to Swiss Super
League; the other two lookups are arbitrary. -/
theorem c8_amended (n : NextSpec) (year month : Nat) (o1 o3 : HttpOutcome) :
    fieldOf (get_stats_from_api
        ⟨o1, .resp 200 (.ok (fixturesPayload [mkNextPayloadMatch n])), o3, year, month⟩)
      "next_match" = .ok (nextOf n) := by
  have hkeys : statsKeys (standingsBlock o1 (initStats year month)) = canonicalKeys :=
    statsKeys_standingsBlock _ _ rfl
  obtain ⟨kvs, hk⟩ := isObj_of_canon _ hkeys
  show Json.get1 (recentBlock o3 (nextCore (fixturesPayload [mkNextPayloadMatch n])
      (standingsBlock o1 (initStats year month)))) "next_match" = .ok (nextOf n)
  rw [get1_recentBlock_ne _ _ _ (by decide)]
  simp only [nextCore, nextParse_mkNextPayloadMatch]
  rw [hk, get1_set_self]
